import Mathlib

/-!
Verification of the optimistic-update state-synchronization logic of the
to-do application (frontend Redux slice `todoSlice.ts`, view helpers
`todoUtils.ts`, rendering components `TodoList`/`TodoItem`, and the backend
`TodoService`).

The embedding is shallow: each reducer of the slice becomes a pure function
on an explicit `TodoState`; the async thunks become compositions of those
reducer functions, one composition per possible resolution (success or
failure) of the remote call; JavaScript `Date` values are modelled as `Nat`
timestamps, and the external `new Date(string)` parser is an explicit
function parameter `parse : String → Nat`; the JavaScript object
`optimisticOperations` is modelled as an association list with
JavaScript-object semantics (replace in place on existing key, append on
new key, delete removes the key).
-/

/-- Priority levels of a todo (source: `'low' | 'medium' | 'high'`). -/
inductive Priority where
  | low
  | medium
  | high
deriving DecidableEq, Repr

/-- The `Todo` entity (source: `Todo` interface in `todoSlice.ts` /
`todo.entity.ts`).  Optional fields are `Option`; `Date` fields are `Nat`
timestamps. -/
structure Todo where
  id : String
  title : String
  description : Option String
  completed : Bool
  priority : Priority
  dueDate : Option Nat
  createdAt : Nat
  updatedAt : Nat
deriving DecidableEq, Repr

/-- Filter selection (source: `FilterType` in `todoSlice.ts`). -/
inductive FilterType where
  | all
  | active
  | completed
deriving DecidableEq, Repr

/-- Sort selection (source: `SortType` in `todoSlice.ts`). -/
inductive SortType where
  | created
  | priority
  | dueDate
deriving DecidableEq, Repr

/-- The kind of in-flight optimistic operation (source: the value type of
`optimisticOperations` in `todoSlice.ts`). -/
inductive OpKind where
  | creating
  | updating
  | deleting
deriving DecidableEq, Repr

/-- The Redux slice state (source: `TodoState` in `todoSlice.ts`).  The
JavaScript object `optimisticOperations` is an association list keyed by
todo id. -/
structure TodoState where
  todos : List Todo
  loading : Bool
  error : Option String
  filter : FilterType
  sort : SortType
  optimisticOperations : List (String × OpKind)
deriving DecidableEq, Repr

/-- JavaScript-object key assignment `obj[k] = v`: replace in place when the
key exists, append otherwise. -/
def setOp : List (String × OpKind) → String → OpKind → List (String × OpKind)
  | [], k, v => [(k, v)]
  | p :: ps, k, v => if p.1 = k then (k, v) :: ps else p :: setOp ps k v

/-- JavaScript-object key deletion `delete obj[k]`. -/
def delOp (ops : List (String × OpKind)) (k : String) : List (String × OpKind) :=
  ops.filter (fun p => p.1 ≠ k)

/-- JavaScript-object key lookup `obj[k]` (`none` models `undefined`). -/
def lookupOp (ops : List (String × OpKind)) (k : String) : Option OpKind :=
  (ops.find? (fun p => p.1 = k)).map Prod.snd

/-- First todo in the list with the given id (`todos.find(t => t.id === k)`). -/
def lookupTodo (todos : List Todo) (k : String) : Option Todo :=
  todos.find? (fun t => t.id = k)

/-- Replace the first todo whose id is `key` by `t`; models
`const index = state.todos.findIndex(todo => todo.id === key);
 if (index !== -1) state.todos[index] = t` when the index exists
(callers handle the not-found case). -/
def replaceById (todos : List Todo) (key : String) (t : Todo) : List Todo :=
  match todos with
  | [] => []
  | x :: xs => if x.id = key then t :: xs else x :: replaceById xs key t

/-- Apply `f` in place to the first todo whose id is `key` (models the
backend's in-place field mutation of the object returned by `findOne`). -/
def updateFirstById (todos : List Todo) (key : String) (f : Todo → Todo) : List Todo :=
  match todos with
  | [] => []
  | x :: xs => if x.id = key then f x :: xs else x :: updateFirstById xs key f

/-! ### Reducers of the slice (source: `reducers` / `extraReducers` of
`todoSlice.ts`) -/

/-- Reducer `addTodoOptimistic`: push the todo and record `creating`. -/
def addTodoOptimistic (s : TodoState) (t : Todo) : TodoState :=
  { s with
    todos := s.todos ++ [t]
    optimisticOperations := setOp s.optimisticOperations t.id OpKind.creating }

/-- Reducer `updateTodoOptimistic`: replace the matching entry and record
`updating`; a no-op when `findIndex` returns `-1`. -/
def updateTodoOptimistic (s : TodoState) (t : Todo) : TodoState :=
  if s.todos.any (fun x => x.id = t.id) then
    { s with
      todos := replaceById s.todos t.id t
      optimisticOperations := setOp s.optimisticOperations t.id OpKind.updating }
  else s

/-- Reducer `markTodoAsDeleting`. -/
def markTodoAsDeleting (s : TodoState) (todoId : String) : TodoState :=
  { s with optimisticOperations := setOp s.optimisticOperations todoId OpKind.deleting }

/-- Reducer `unmarkTodoAsDeleting`. -/
def unmarkTodoAsDeleting (s : TodoState) (todoId : String) : TodoState :=
  { s with optimisticOperations := delOp s.optimisticOperations todoId }

/-- Reducer `removeOptimisticTodo`: drop every todo with the id and clear the
pending record. -/
def removeOptimisticTodo (s : TodoState) (todoId : String) : TodoState :=
  { s with
    todos := s.todos.filter (fun t => t.id ≠ todoId)
    optimisticOperations := delOp s.optimisticOperations todoId }

/-- Extra reducer for `createTodo.fulfilled`: replace the temp-id todo by the
server todo and clear the pending record for the temp id. -/
def createTodoFulfilled (s : TodoState) (tempId : String) (newTodo : Todo) : TodoState :=
  { s with
    todos := replaceById s.todos tempId newTodo
    optimisticOperations := delOp s.optimisticOperations tempId }

/-- Extra reducer for `updateTodo.fulfilled` (identical to
`toggleTodoComplete.fulfilled`): overwrite the entry with the server todo and
clear the pending record. -/
def updateTodoFulfilled (s : TodoState) (serverTodo : Todo) : TodoState :=
  { s with
    todos := replaceById s.todos serverTodo.id serverTodo
    optimisticOperations := delOp s.optimisticOperations serverTodo.id }

/-- Extra reducer for `deleteTodo.fulfilled`: remove the todo and clear the
pending record. -/
def deleteTodoFulfilled (s : TodoState) (todoId : String) : TodoState :=
  { s with
    todos := s.todos.filter (fun t => t.id ≠ todoId)
    optimisticOperations := delOp s.optimisticOperations todoId }

/-- Every `.rejected` extra reducer of the slice: store the rejection payload
in `state.error`. -/
def setRejectedError (s : TodoState) (msg : String) : TodoState :=
  { s with error := some msg }

/-! ### Request types and the thunks' entity computations -/

/-- `CreateTodoRequest` (source: `types/todo.ts`); `dueDate` is the raw
string form, absent = `undefined`. -/
structure CreateTodoRequest where
  title : String
  description : Option String
  priority : Priority
  dueDate : Option String
deriving DecidableEq, Repr

/-- `UpdateTodoRequest` (source: `types/todo.ts`): every field optional,
`none` modelling an absent (or `undefined`) field. -/
structure UpdateTodoRequest where
  title : Option String
  description : Option String
  completed : Option Bool
  priority : Option Priority
  dueDate : Option String
deriving DecidableEq, Repr

/-- The optimistic todo constructed by the `createTodo` thunk:
temporary id, `completed: false`, `now` timestamps, and
`dueDate: todoData.dueDate ? new Date(todoData.dueDate) : undefined`
(the empty string is falsy, hence yields `undefined`). -/
def mkOptimisticTodo (todoData : CreateTodoRequest) (tempId : String) (now : Nat)
    (parse : String → Nat) : Todo :=
  { id := tempId
    title := todoData.title
    description := todoData.description
    completed := false
    priority := todoData.priority
    dueDate :=
      match todoData.dueDate with
      | none => none
      | some d => if d = "" then none else some (parse d)
    createdAt := now
    updatedAt := now }

/-- The `updatedTodo` computed by the `updateTodo` thunk: overlay of the
field changes onto `originalTodo`, each field guarded by a
`!== undefined` check, `dueDate` using the extra truthiness check
(`todoData.dueDate ? new Date(todoData.dueDate) : undefined`). -/
def overlayTodo (todoData : UpdateTodoRequest) (originalTodo : Todo) (now : Nat)
    (parse : String → Nat) : Todo :=
  { id := originalTodo.id
    title :=
      match todoData.title with
      | some v => v
      | none => originalTodo.title
    description :=
      match todoData.description with
      | some v => some v
      | none => originalTodo.description
    completed :=
      match todoData.completed with
      | some v => v
      | none => originalTodo.completed
    priority :=
      match todoData.priority with
      | some v => v
      | none => originalTodo.priority
    dueDate :=
      match todoData.dueDate with
      | some d => if d = "" then none else some (parse d)
      | none => originalTodo.dueDate
    createdAt := originalTodo.createdAt
    updatedAt := now }

/-- The toggled todo computed by the `toggleTodoComplete` thunk. -/
def toggledTodo (todo : Todo) (now : Nat) : Todo :=
  { todo with completed := !todo.completed, updatedAt := now }

/-! ### Thunk resolutions, one composition of reducers per outcome -/

/-- `createTodo` thunk when the remote call succeeds: optimistic add, then
the `fulfilled` reducer. -/
def createTodoFlowSuccess (s : TodoState) (todoData : CreateTodoRequest) (tempId : String)
    (now : Nat) (parse : String → Nat) (newTodo : Todo) : TodoState :=
  createTodoFulfilled (addTodoOptimistic s (mkOptimisticTodo todoData tempId now parse))
    tempId newTodo

/-- `createTodo` thunk when the remote call fails: optimistic add, removal of
the temp todo, then the `rejected` reducer storing the message. -/
def createTodoFlowFailure (s : TodoState) (todoData : CreateTodoRequest) (tempId : String)
    (now : Nat) (parse : String → Nat) (msg : String) : TodoState :=
  setRejectedError
    (removeOptimisticTodo (addTodoOptimistic s (mkOptimisticTodo todoData tempId now parse))
      tempId) msg

/-- `updateTodo` thunk when the remote call succeeds. -/
def updateTodoFlowSuccess (s : TodoState) (todoData : UpdateTodoRequest) (originalTodo : Todo)
    (now : Nat) (parse : String → Nat) (serverTodo : Todo) : TodoState :=
  updateTodoFulfilled (updateTodoOptimistic s (overlayTodo todoData originalTodo now parse))
    serverTodo

/-- `updateTodo` thunk when the remote call fails: optimistic apply, rollback
by re-dispatching `updateTodoOptimistic` with the submit-time snapshot
`originalTodo`, then the `rejected` reducer. -/
def updateTodoFlowFailure (s : TodoState) (todoData : UpdateTodoRequest) (originalTodo : Todo)
    (now : Nat) (parse : String → Nat) (msg : String) : TodoState :=
  setRejectedError
    (updateTodoOptimistic (updateTodoOptimistic s (overlayTodo todoData originalTodo now parse))
      originalTodo) msg

/-- `deleteTodo` thunk when the remote call succeeds. -/
def deleteTodoFlowSuccess (s : TodoState) (todoId : String) : TodoState :=
  deleteTodoFulfilled (markTodoAsDeleting s todoId) todoId

/-- `deleteTodo` thunk when the remote call fails. -/
def deleteTodoFlowFailure (s : TodoState) (todoId : String) (msg : String) : TodoState :=
  setRejectedError (unmarkTodoAsDeleting (markTodoAsDeleting s todoId) todoId) msg

/-- `toggleTodoComplete` thunk when the remote call fails: optimistic toggle,
rollback to the pre-toggle todo, then the `rejected` reducer. -/
def toggleTodoFlowFailure (s : TodoState) (todo : Todo) (now : Nat) (msg : String) : TodoState :=
  setRejectedError
    (updateTodoOptimistic (updateTodoOptimistic s (toggledTodo todo now)) todo) msg

/-- The error message thrown by `todoApi.updateTodo` on a non-ok response;
it is what `rejectWithValue` forwards for both a failed `updateTodo` and a
failed `toggleTodoComplete`. -/
def apiUpdateErrorMsg : String := "Failed to update todo"

/-! ### View projection (source: `todoUtils.ts`) -/

/-- Filter predicate of `filterTodos`, as a boolean. -/
def matchesFilter : FilterType → Todo → Bool
  | FilterType.all, _ => true
  | FilterType.active, t => !t.completed
  | FilterType.completed, t => t.completed

/-- `filterTodos` (source: `todoUtils.ts`). -/
def filterTodos (todos : List Todo) (filter : FilterType) : List Todo :=
  match filter with
  | FilterType.active => todos.filter (fun t => !t.completed)
  | FilterType.completed => todos.filter (fun t => t.completed)
  | FilterType.all => todos

/-- Numeric priority rank (source: `priorityOrder` in `sortTodos`). -/
def priorityOrder : Priority → Nat
  | Priority.high => 3
  | Priority.medium => 2
  | Priority.low => 1

/-- Stay-before relation of the `created` comparator
(`b.createdAt - a.createdAt ≤ 0`, i.e. creation time descending). -/
def createdLe (a b : Todo) : Prop := b.createdAt ≤ a.createdAt

/-- Stay-before relation of the `priority` comparator (priority rank
descending). -/
def priorityLe (a b : Todo) : Prop := priorityOrder b.priority ≤ priorityOrder a.priority

/-- The `dueDate` comparator of `sortTodos` as a boolean stay-before test:
todos without a due date go after every todo with one, otherwise due date
ascending. -/
def dueCmpLe : Option Nat → Option Nat → Bool
  | none, none => true
  | none, some _ => false
  | some _, none => true
  | some x, some y => decide (x ≤ y)

/-- Stay-before relation of the `dueDate` comparator. -/
def dueLe (a b : Todo) : Prop := dueCmpLe a.dueDate b.dueDate = true

instance : DecidableRel createdLe :=
  fun a b => inferInstanceAs (Decidable (b.createdAt ≤ a.createdAt))

instance : DecidableRel priorityLe :=
  fun a b => inferInstanceAs (Decidable (priorityOrder b.priority ≤ priorityOrder a.priority))

instance : DecidableRel dueLe :=
  fun a b => inferInstanceAs (Decidable (dueCmpLe a.dueDate b.dueDate = true))

instance : IsTotal Todo createdLe :=
  ⟨fun a b => Nat.le_total b.createdAt a.createdAt⟩

instance : IsTrans Todo createdLe :=
  ⟨fun _ _ _ h1 h2 => Nat.le_trans h2 h1⟩

instance : IsTotal Todo priorityLe :=
  ⟨fun a b => Nat.le_total (priorityOrder b.priority) (priorityOrder a.priority)⟩

instance : IsTrans Todo priorityLe :=
  ⟨fun _ _ _ h1 h2 => Nat.le_trans h2 h1⟩

instance : IsTotal Todo dueLe := by
  constructor
  intro a b
  unfold dueLe
  cases a.dueDate <;> cases b.dueDate <;> simp [dueCmpLe] <;> omega

instance : IsTrans Todo dueLe := by
  constructor
  intro a b c h1 h2
  unfold dueLe at h1 h2 ⊢
  revert h1 h2
  cases a.dueDate <;> cases b.dueDate <;> cases c.dueDate <;> simp [dueCmpLe] <;> omega

/-- `sortTodos` (source: `todoUtils.ts`): a stable sort of a copy of the
input under the selected comparator (JavaScript `Array.prototype.sort` is
stable; modelled by insertion sort). -/
def sortTodos (todos : List Todo) (sort : SortType) : List Todo :=
  match sort with
  | SortType.priority => List.insertionSort priorityLe todos
  | SortType.dueDate => List.insertionSort dueLe todos
  | SortType.created => List.insertionSort createdLe todos

/-- `getFilteredAndSortedTodos` (source: `todoUtils.ts`). -/
def getFilteredAndSortedTodos (todos : List Todo) (filter : FilterType) (sort : SortType) :
    List Todo :=
  sortTodos (filterTodos todos filter) sort

/-- The ordering each sort selection promises. -/
def sortRel : SortType → Todo → Todo → Prop
  | SortType.created => createdLe
  | SortType.priority => priorityLe
  | SortType.dueDate => dueLe

/-- The rendered projection for a given filter and sort selection: `TodoList`
maps `getFilteredAndSortedTodos` over `TodoItem`, and `TodoItem` renders
`null` when `optimisticOperations[todo.id] === 'deleting'`, so pending-delete
entries are excluded from the visible sequence. -/
def renderedTodosWith (s : TodoState) (filter : FilterType) (sort : SortType) : List Todo :=
  (getFilteredAndSortedTodos s.todos filter sort).filter
    (fun t => lookupOp s.optimisticOperations t.id ≠ some OpKind.deleting)

/-! ### Backend service (source: `todo.service.ts`) -/

/-- `UpdateTodoDto` of the backend: the optional field set read by
`TodoService.update` (title, description, completed, priority, dueDate). -/
structure UpdateTodoDto where
  title : Option String
  description : Option String
  completed : Option Bool
  priority : Option Priority
  dueDate : Option String
deriving DecidableEq, Repr

/-- The in-place field mutation performed by `TodoService.update` on the
found todo: each field assigned only when present (`!== undefined`) in the
dto, `dueDate` through the truthiness check, then `updatedAt = new Date()`. -/
def applyUpdateDto (t : Todo) (dto : UpdateTodoDto) (now : Nat) (parse : String → Nat) : Todo :=
  { t with
    title :=
      match dto.title with
      | some v => v
      | none => t.title
    description :=
      match dto.description with
      | some v => some v
      | none => t.description
    completed :=
      match dto.completed with
      | some v => v
      | none => t.completed
    priority :=
      match dto.priority with
      | some v => v
      | none => t.priority
    dueDate :=
      match dto.dueDate with
      | some d => if d = "" then none else some (parse d)
      | none => t.dueDate
    updatedAt := now }

/-- `TodoService.update(id, dto)`: `findOne` throws `NotFoundException` when
no todo has the id; otherwise the found todo (the first match) is mutated in
place, leaving the collection's length and order untouched. -/
def TodoServiceUpdate (todos : List Todo) (todoId : String) (dto : UpdateTodoDto) (now : Nat)
    (parse : String → Nat) : Except String (List Todo) :=
  if todos.any (fun t => t.id = todoId) then
    Except.ok (updateFirstById todos todoId (fun t => applyUpdateDto t dto now parse))
  else
    Except.error ("Todo with ID " ++ todoId ++ " not found")

/-! ### Helper lemmas about the association-list object semantics -/

theorem lookupOp_setOp_self (ops : List (String × OpKind)) (k : String) (v : OpKind) :
    lookupOp (setOp ops k v) k = some v := by
  induction ops with
  | nil =>
    simp only [setOp, lookupOp]
    rw [List.find?_cons_of_pos _ (by simp)]
    rfl
  | cons p ps ih =>
    by_cases h : p.1 = k
    · simp only [setOp, if_pos h, lookupOp]
      rw [List.find?_cons_of_pos _ (by simp)]
      rfl
    · simp only [setOp, if_neg h, lookupOp]
      rw [List.find?_cons_of_neg _ (by simpa using h)]
      exact ih

theorem lookupOp_setOp_ne (ops : List (String × OpKind)) (k u : String) (v : OpKind)
    (h : u ≠ k) : lookupOp (setOp ops k v) u = lookupOp ops u := by
  induction ops with
  | nil =>
    simp only [setOp, lookupOp]
    rw [List.find?_cons_of_neg _ (by simp [Ne.symm h])]
  | cons p ps ih =>
    by_cases hp : p.1 = k
    · simp only [setOp, if_pos hp, lookupOp]
      rw [List.find?_cons_of_neg _ (by simp [Ne.symm h]),
        List.find?_cons_of_neg _ (by simp [hp, Ne.symm h])]
    · simp only [setOp, if_neg hp, lookupOp]
      by_cases hpu : p.1 = u
      · rw [List.find?_cons_of_pos _ (by simp [hpu]), List.find?_cons_of_pos _ (by simp [hpu])]
      · rw [List.find?_cons_of_neg _ (by simpa using hpu),
          List.find?_cons_of_neg _ (by simpa using hpu)]
        exact ih

theorem lookupOp_delOp_self (ops : List (String × OpKind)) (k : String) :
    lookupOp (delOp ops k) k = none := by
  induction ops with
  | nil => rfl
  | cons p ps ih =>
    by_cases h : p.1 = k
    · simp only [delOp] at ih ⊢
      rw [List.filter_cons_of_neg (by simp [h])]
      exact ih
    · simp only [delOp, lookupOp] at ih ⊢
      rw [List.filter_cons_of_pos (by simpa using h),
        List.find?_cons_of_neg _ (by simpa using h)]
      exact ih

theorem lookupOp_delOp_ne (ops : List (String × OpKind)) (k u : String) (h : u ≠ k) :
    lookupOp (delOp ops k) u = lookupOp ops u := by
  induction ops with
  | nil => rfl
  | cons p ps ih =>
    by_cases hp : p.1 = k
    · simp only [delOp, lookupOp] at ih ⊢
      rw [List.filter_cons_of_neg (by simp [hp]),
        List.find?_cons_of_neg _ (by simp [hp, Ne.symm h])]
      exact ih
    · simp only [delOp, lookupOp] at ih ⊢
      rw [List.filter_cons_of_pos (by simpa using hp)]
      by_cases hpu : p.1 = u
      · rw [List.find?_cons_of_pos _ (by simp [hpu]), List.find?_cons_of_pos _ (by simp [hpu])]
      · rw [List.find?_cons_of_neg _ (by simpa using hpu),
          List.find?_cons_of_neg _ (by simpa using hpu)]
        exact ih

theorem delOp_setOp (ops : List (String × OpKind)) (k : String) (v : OpKind) :
    delOp (setOp ops k v) k = delOp ops k := by
  induction ops with
  | nil =>
    simp only [setOp, delOp]
    rw [List.filter_cons_of_neg (by simp)]
  | cons p ps ih =>
    by_cases h : p.1 = k
    · simp only [setOp, if_pos h, delOp]
      rw [List.filter_cons_of_neg (by simp), List.filter_cons_of_neg (by simp [h])]
    · simp only [setOp, if_neg h, delOp] at ih ⊢
      rw [List.filter_cons_of_pos (by simpa using h), List.filter_cons_of_pos (by simpa using h),
        ih]

theorem lookupOp_eq_none_forall (ops : List (String × OpKind)) (k : String)
    (h : lookupOp ops k = none) : ∀ p ∈ ops, ¬(p.1 = k) := by
  intro p hp
  have h' : List.find? (fun q => q.1 = k) ops = none := Option.map_eq_none'.mp h
  simpa using List.find?_eq_none.mp h' p hp

theorem delOp_of_lookupOp_none (ops : List (String × OpKind)) (k : String)
    (h : lookupOp ops k = none) : delOp ops k = ops := by
  have h' := lookupOp_eq_none_forall ops k h
  simp only [delOp]
  rw [List.filter_eq_self]
  intro p hp
  simpa using h' p hp

theorem delOp_idem (ops : List (String × OpKind)) (k : String) :
    delOp (delOp ops k) k = delOp ops k := by
  simp [delOp, List.filter_filter]

/-! ### Helper lemmas about the todo list -/

theorem any_replaceById (l : List Todo) (k : String) (v : Todo) (hv : v.id = k) :
    ((replaceById l k v).any (fun t => t.id = k)) = (l.any (fun t => t.id = k)) := by
  induction l with
  | nil => rfl
  | cons x xs ih =>
    by_cases h : x.id = k
    · simp only [replaceById, if_pos h]
      rw [List.any_cons, List.any_cons]
      simp [h, hv]
    · simp only [replaceById, if_neg h]
      rw [List.any_cons, List.any_cons, ih]

theorem lookupTodo_replaceById_self (l : List Todo) (k : String) (v : Todo) (hv : v.id = k)
    (h : l.any (fun t => t.id = k) = true) :
    lookupTodo (replaceById l k v) k = some v := by
  induction l with
  | nil => simp at h
  | cons x xs ih =>
    by_cases hx : x.id = k
    · simp only [replaceById, if_pos hx, lookupTodo]
      rw [List.find?_cons_of_pos _ (by simp [hv])]
    · have h' : xs.any (fun t => t.id = k) = true := by
        rw [List.any_cons] at h
        simpa [hx] using h
      simp only [replaceById, if_neg hx, lookupTodo]
      rw [List.find?_cons_of_neg _ (by simpa using hx)]
      exact ih h'

theorem lookupTodo_replaceById_ne (l : List Todo) (k u : String) (v : Todo) (hv : v.id = k)
    (hu : u ≠ k) : lookupTodo (replaceById l k v) u = lookupTodo l u := by
  induction l with
  | nil => rfl
  | cons x xs ih =>
    by_cases hx : x.id = k
    · simp only [replaceById, if_pos hx, lookupTodo]
      rw [List.find?_cons_of_neg _ (by simp [hv, Ne.symm hu]),
        List.find?_cons_of_neg _ (by simp [hx, Ne.symm hu])]
    · simp only [replaceById, if_neg hx, lookupTodo] at ih ⊢
      by_cases hxu : x.id = u
      · rw [List.find?_cons_of_pos _ (by simp [hxu]), List.find?_cons_of_pos _ (by simp [hxu])]
      · rw [List.find?_cons_of_neg _ (by simpa using hxu),
          List.find?_cons_of_neg _ (by simpa using hxu)]
        exact ih

theorem lookupTodo_filter_ne (l : List Todo) (k u : String) (hu : u ≠ k) :
    lookupTodo (l.filter (fun t => t.id ≠ k)) u = lookupTodo l u := by
  induction l with
  | nil => rfl
  | cons x xs ih =>
    by_cases hx : x.id = k
    · simp only [lookupTodo] at ih ⊢
      rw [List.filter_cons_of_neg (by simp [hx]),
        List.find?_cons_of_neg _ (by simp [hx, Ne.symm hu])]
      exact ih
    · simp only [lookupTodo] at ih ⊢
      rw [List.filter_cons_of_pos (by simpa using hx)]
      by_cases hxu : x.id = u
      · rw [List.find?_cons_of_pos _ (by simp [hxu]), List.find?_cons_of_pos _ (by simp [hxu])]
      · rw [List.find?_cons_of_neg _ (by simpa using hxu),
          List.find?_cons_of_neg _ (by simpa using hxu)]
        exact ih

theorem lookupTodo_append_fresh (l1 l2 : List Todo) (k : String)
    (hfresh : ∀ t ∈ l1, t.id ≠ k) : lookupTodo (l1 ++ l2) k = lookupTodo l2 k := by
  induction l1 with
  | nil => rfl
  | cons x xs ih =>
    have hx : ¬(x.id = k) := hfresh x (by simp)
    simp only [List.cons_append, lookupTodo]
    rw [List.find?_cons_of_neg _ (by simpa using hx)]
    exact ih (fun t ht => hfresh t (by simp [ht]))

theorem replaceById_append_fresh (l1 l2 : List Todo) (k : String) (v : Todo)
    (hfresh : ∀ t ∈ l1, t.id ≠ k) :
    replaceById (l1 ++ l2) k v = l1 ++ replaceById l2 k v := by
  induction l1 with
  | nil => rfl
  | cons x xs ih =>
    have hx : ¬(x.id = k) := hfresh x (by simp)
    simp only [List.cons_append, replaceById, if_neg hx, List.append_eq]
    rw [ih (fun t ht => hfresh t (by simp [ht]))]

theorem filter_ne_fresh (l : List Todo) (k : String) (hfresh : ∀ t ∈ l, t.id ≠ k) :
    l.filter (fun t => t.id ≠ k) = l := by
  rw [List.filter_eq_self]
  intro t ht
  simpa using hfresh t ht

theorem replaceById_replaceById_self (l : List Todo) (k : String) (v : Todo) (hv : v.id = k) :
    replaceById (replaceById l k v) k v = replaceById l k v := by
  induction l with
  | nil => rfl
  | cons x xs ih =>
    by_cases hx : x.id = k
    · simp [replaceById, hx, hv]
    · simp only [replaceById, if_neg hx]
      rw [ih]

theorem length_updateFirstById (l : List Todo) (k : String) (f : Todo → Todo) :
    (updateFirstById l k f).length = l.length := by
  induction l with
  | nil => rfl
  | cons x xs ih =>
    by_cases hx : x.id = k <;> simp [updateFirstById, hx, ih]

theorem mem_zip_self {α : Type} (l : List α) (p : α × α) (h : p ∈ l.zip l) : p.2 = p.1 := by
  induction l with
  | nil => simp at h
  | cons x xs ih =>
    rcases (by simpa [List.zip_cons_cons] using h : p = (x, x) ∨ p ∈ xs.zip xs) with h' | h'
    · simp [h']
    · exact ih h'

theorem zip_updateFirstById (l : List Todo) (k : String) (f : Todo → Todo)
    (hnd : (l.map Todo.id).Nodup) :
    ∀ p ∈ l.zip (updateFirstById l k f),
      (p.1.id ≠ k → p.2 = p.1) ∧ (p.1.id = k → p.2 = f p.1) := by
  induction l with
  | nil => simp
  | cons x xs ih =>
    have hnd0 : x.id ∉ xs.map Todo.id ∧ (xs.map Todo.id).Nodup := by
      simpa [List.nodup_cons] using hnd
    intro p hp
    by_cases hx : x.id = k
    · rcases (by simpa [updateFirstById, hx, List.zip_cons_cons] using hp :
        p = (x, f x) ∨ p ∈ xs.zip xs) with h' | h'
      · constructor
        · intro hne
          exact absurd (by simp [h', hx]) hne
        · intro _
          simp [h']
      · have h1 : p.1 ∈ xs :=
          (List.of_mem_zip (show (p.1, p.2) ∈ xs.zip xs by simpa using h')).1
        have hpk : p.1.id ≠ k := by
          intro hk
          exact hnd0.1 (by
            rw [hx, ← hk]
            exact List.mem_map_of_mem Todo.id h1)
        exact ⟨fun _ => mem_zip_self xs p h', fun hk => absurd hk hpk⟩
    · rcases (by simpa [updateFirstById, hx, List.zip_cons_cons] using hp :
        p = (x, x) ∨ p ∈ xs.zip (updateFirstById xs k f)) with h' | h'
      · constructor
        · intro _
          simp [h']
        · intro hk
          exact absurd (by simpa [h'] using hk) hx
      · exact ih hnd0.2 p h'

/-! ### Helper lemmas about the reducers -/

theorem updateTodoOptimistic_pos (s : TodoState) (t : Todo)
    (h : (s.todos.any (fun x => x.id = t.id)) = true) :
    updateTodoOptimistic s t =
      { s with
        todos := replaceById s.todos t.id t
        optimisticOperations := setOp s.optimisticOperations t.id OpKind.updating } := by
  simp [updateTodoOptimistic, h]

theorem updateTodoOptimistic_neg (s : TodoState) (t : Todo)
    (h : (s.todos.any (fun x => x.id = t.id)) = false) :
    updateTodoOptimistic s t = s := by
  simp [updateTodoOptimistic, h]

theorem lookupTodo_updateTodoOptimistic_ne (s : TodoState) (t : Todo) (u : String)
    (hu : u ≠ t.id) :
    lookupTodo (updateTodoOptimistic s t).todos u = lookupTodo s.todos u := by
  by_cases h : (s.todos.any (fun x => x.id = t.id)) = true
  · rw [updateTodoOptimistic_pos s t h]
    exact lookupTodo_replaceById_ne s.todos t.id u t rfl hu
  · rw [updateTodoOptimistic_neg s t (by simpa using h)]

theorem lookupTodo_updateTodoOptimistic_self (s : TodoState) (t : Todo)
    (h : (s.todos.any (fun x => x.id = t.id)) = true) :
    lookupTodo (updateTodoOptimistic s t).todos t.id = some t := by
  rw [updateTodoOptimistic_pos s t h]
  exact lookupTodo_replaceById_self s.todos t.id t rfl h

theorem any_updateTodoOptimistic (s : TodoState) (t : Todo) (k : String) (ht : t.id = k) :
    ((updateTodoOptimistic s t).todos.any (fun x => x.id = k)) =
      (s.todos.any (fun x => x.id = k)) := by
  subst ht
  by_cases h : (s.todos.any (fun x => x.id = t.id)) = true
  · rw [updateTodoOptimistic_pos s t h]
    exact any_replaceById s.todos t.id t rfl
  · rw [updateTodoOptimistic_neg s t (by simpa using h)]

theorem lookupTodo_append_single_ne (l : List Todo) (v : Todo) (u : String)
    (hv : v.id ≠ u) : lookupTodo (l ++ [v]) u = lookupTodo l u := by
  induction l with
  | nil =>
    simp only [List.nil_append, lookupTodo]
    rw [List.find?_cons_of_neg _ (by simpa using hv)]
  | cons x xs ih =>
    simp only [List.cons_append, lookupTodo] at ih ⊢
    by_cases hx : x.id = u
    · rw [List.find?_cons_of_pos _ (by simp [hx]), List.find?_cons_of_pos _ (by simp [hx])]
    · rw [List.find?_cons_of_neg _ (by simpa using hx),
        List.find?_cons_of_neg _ (by simpa using hx)]
      exact ih

/-! ### Claim theorems -/

/-- Claim C7: for every list of entities and every filter/sort selection, the
view projection returns exactly the entities passing the filter predicate
(membership on the completed flag for all/active/completed), arranged in the
selected order — creation time descending for created, priority rank
descending for priority, due date ascending with entities lacking a due date
placed last for dueDate (the relation `sortRel` encodes exactly these
orders).  The projection is a pure function of its inputs (it holds no state
of its own), and the output is a permutation of the filtered input. -/
theorem C7_projection_filter_sort (todos : List Todo) (f : FilterType) (st : SortType) :
    List.Sorted (sortRel st) (getFilteredAndSortedTodos todos f st) ∧
    List.Perm (getFilteredAndSortedTodos todos f st) (filterTodos todos f) ∧
    (∀ t, t ∈ filterTodos todos f ↔ (t ∈ todos ∧ matchesFilter f t = true)) := by
  refine ⟨?_, ?_, ?_⟩
  · cases st
    · exact List.sorted_insertionSort createdLe (filterTodos todos f)
    · exact List.sorted_insertionSort priorityLe (filterTodos todos f)
    · exact List.sorted_insertionSort dueLe (filterTodos todos f)
  · cases st
    · exact List.perm_insertionSort createdLe (filterTodos todos f)
    · exact List.perm_insertionSort priorityLe (filterTodos todos f)
    · exact List.perm_insertionSort dueLe (filterTodos todos f)
  · intro t
    cases f
    · simp [filterTodos, matchesFilter]
    · simp [filterTodos, matchesFilter, List.mem_filter]
    · simp [filterTodos, matchesFilter, List.mem_filter]

/-- Claim C8: applying the `updateTodo.fulfilled` handler twice with the same
confirmed entity is idempotent — the whole store state (todo list and
pending-operation records included) after the second application equals the
state after the first. -/
theorem C8_confirm_idempotent (s : TodoState) (t : Todo) :
    updateTodoFulfilled (updateTodoFulfilled s t) t = updateTodoFulfilled s t := by
  simp only [updateTodoFulfilled]
  rw [replaceById_replaceById_self s.todos t.id t rfl, delOp_idem]

/-- Claim C9: dispatching `updateTodoOptimistic` with an entity whose
identifier is not in the mirror leaves the entire store state unchanged —
no todo is inserted and no pending-operation record is created. -/
theorem C9_unknown_id_noop (s : TodoState) (t : Todo)
    (h : ∀ x ∈ s.todos, x.id ≠ t.id) : updateTodoOptimistic s t = s := by
  apply updateTodoOptimistic_neg
  rw [List.any_eq_false]
  intro x hx
  simpa using h x hx

/-- Concrete todo used by several witnesses. -/
def sampleTodo1 : Todo :=
  { id := "1", title := "first", description := none, completed := false,
    priority := Priority.low, dueDate := none, createdAt := 10, updatedAt := 10 }

/-- Second concrete todo used by several witnesses. -/
def sampleTodo2 : Todo :=
  { id := "2", title := "second", description := some "d", completed := true,
    priority := Priority.high, dueDate := some 5, createdAt := 20, updatedAt := 20 }

/-- Concrete store state used by several witnesses. -/
def sampleState : TodoState :=
  { todos := [sampleTodo1, sampleTodo2], loading := false, error := none,
    filter := FilterType.all, sort := SortType.created, optimisticOperations := [] }

/-- Concrete todo whose identifier is absent from `sampleState`. -/
def ghostTodo : Todo :=
  { id := "99", title := "ghost", description := none, completed := false,
    priority := Priority.medium, dueDate := none, createdAt := 0, updatedAt := 0 }

/-- Witness for C9 at a concrete input. -/
theorem C9_unknown_id_noop_witness :
    (∀ x ∈ sampleState.todos, x.id ≠ ghostTodo.id) ∧
    updateTodoOptimistic sampleState ghostTodo = sampleState :=
  ⟨by decide, C9_unknown_id_noop sampleState ghostTodo (by decide)⟩

/-- Claim C5: the optimistically applied entity of an update submission is
exactly the overlay of the field changes onto the baseline: every field
absent (`none`) from the request keeps its baseline value, every field
present overwrites it — including a present-but-empty value (`some ""` for
the due date clears it to `none` instead of being treated as unspecified),
so an explicit clear is distinguishable from an unspecified field — and the
mirror entry right after the optimistic dispatch is that overlay. -/
theorem C5_overlay_semantics (d : UpdateTodoRequest) (B : Todo) (now : Nat)
    (parse : String → Nat) (s : TodoState)
    (hpres : (s.todos.any (fun x => x.id = B.id)) = true) :
    (overlayTodo d B now parse).id = B.id ∧
    (overlayTodo d B now parse).createdAt = B.createdAt ∧
    (overlayTodo d B now parse).updatedAt = now ∧
    (d.title = none → (overlayTodo d B now parse).title = B.title) ∧
    (∀ v, d.title = some v → (overlayTodo d B now parse).title = v) ∧
    (d.description = none → (overlayTodo d B now parse).description = B.description) ∧
    (∀ v, d.description = some v → (overlayTodo d B now parse).description = some v) ∧
    (d.completed = none → (overlayTodo d B now parse).completed = B.completed) ∧
    (∀ v, d.completed = some v → (overlayTodo d B now parse).completed = v) ∧
    (d.priority = none → (overlayTodo d B now parse).priority = B.priority) ∧
    (∀ v, d.priority = some v → (overlayTodo d B now parse).priority = v) ∧
    (d.dueDate = none → (overlayTodo d B now parse).dueDate = B.dueDate) ∧
    (d.dueDate = some "" → (overlayTodo d B now parse).dueDate = none) ∧
    (∀ v, d.dueDate = some v → v ≠ "" →
      (overlayTodo d B now parse).dueDate = some (parse v)) ∧
    lookupTodo (updateTodoOptimistic s (overlayTodo d B now parse)).todos B.id =
      some (overlayTodo d B now parse) := by
  refine ⟨rfl, rfl, rfl, ?_, ?_, ?_, ?_, ?_, ?_, ?_, ?_, ?_, ?_, ?_, ?_⟩
  · intro h
    simp [overlayTodo, h]
  · intro v h
    simp [overlayTodo, h]
  · intro h
    simp [overlayTodo, h]
  · intro v h
    simp [overlayTodo, h]
  · intro h
    simp [overlayTodo, h]
  · intro v h
    simp [overlayTodo, h]
  · intro h
    simp [overlayTodo, h]
  · intro v h
    simp [overlayTodo, h]
  · intro h
    simp [overlayTodo, h]
  · intro h
    simp [overlayTodo, h]
  · intro v h hne
    simp [overlayTodo, h, hne]
  · exact lookupTodo_updateTodoOptimistic_self s (overlayTodo d B now parse) hpres

/-- Concrete update request used by the C5 witness: sets the title, clears
the due date with the empty-string sentinel, leaves all else unspecified. -/
def sampleUpdateReq : UpdateTodoRequest :=
  { title := some "renamed", description := none, completed := none,
    priority := none, dueDate := some "" }

/-- Witness for C5 at a concrete input. -/
theorem C5_overlay_semantics_witness :
    ((sampleState.todos.any (fun x => x.id = sampleTodo2.id)) = true) ∧
    ((overlayTodo sampleUpdateReq sampleTodo2 33 String.length).id = sampleTodo2.id ∧
     (overlayTodo sampleUpdateReq sampleTodo2 33 String.length).createdAt =
       sampleTodo2.createdAt ∧
     (overlayTodo sampleUpdateReq sampleTodo2 33 String.length).updatedAt = 33 ∧
     (sampleUpdateReq.title = none →
       (overlayTodo sampleUpdateReq sampleTodo2 33 String.length).title = sampleTodo2.title) ∧
     (∀ v, sampleUpdateReq.title = some v →
       (overlayTodo sampleUpdateReq sampleTodo2 33 String.length).title = v) ∧
     (sampleUpdateReq.description = none →
       (overlayTodo sampleUpdateReq sampleTodo2 33 String.length).description =
         sampleTodo2.description) ∧
     (∀ v, sampleUpdateReq.description = some v →
       (overlayTodo sampleUpdateReq sampleTodo2 33 String.length).description = some v) ∧
     (sampleUpdateReq.completed = none →
       (overlayTodo sampleUpdateReq sampleTodo2 33 String.length).completed =
         sampleTodo2.completed) ∧
     (∀ v, sampleUpdateReq.completed = some v →
       (overlayTodo sampleUpdateReq sampleTodo2 33 String.length).completed = v) ∧
     (sampleUpdateReq.priority = none →
       (overlayTodo sampleUpdateReq sampleTodo2 33 String.length).priority =
         sampleTodo2.priority) ∧
     (∀ v, sampleUpdateReq.priority = some v →
       (overlayTodo sampleUpdateReq sampleTodo2 33 String.length).priority = v) ∧
     (sampleUpdateReq.dueDate = none →
       (overlayTodo sampleUpdateReq sampleTodo2 33 String.length).dueDate =
         sampleTodo2.dueDate) ∧
     (sampleUpdateReq.dueDate = some "" →
       (overlayTodo sampleUpdateReq sampleTodo2 33 String.length).dueDate = none) ∧
     (∀ v, sampleUpdateReq.dueDate = some v → v ≠ "" →
       (overlayTodo sampleUpdateReq sampleTodo2 33 String.length).dueDate =
         some (String.length v)) ∧
     lookupTodo
       (updateTodoOptimistic sampleState
         (overlayTodo sampleUpdateReq sampleTodo2 33 String.length)).todos sampleTodo2.id =
       some (overlayTodo sampleUpdateReq sampleTodo2 33 String.length)) :=
  ⟨by decide,
    C5_overlay_semantics sampleUpdateReq sampleTodo2 33 String.length sampleState (by decide)⟩

/-- Claim C3: a submitted create immediately places an entity with the
temporary identifier and `completed = false` in the mirror; on remote
success the temporary entity is replaced in place by the server-returned
entity, the pending record for the temporary identifier is cleared, and the
mirror holds exactly one entity for that create with no temporary-identifier
entry left. -/
theorem C3_create_success (s : TodoState) (todoData : CreateTodoRequest) (tempId : String)
    (now : Nat) (parse : String → Nat) (newTodo : Todo)
    (hfreshTemp : ∀ t ∈ s.todos, t.id ≠ tempId)
    (hneq : newTodo.id ≠ tempId)
    (hfreshNew : ∀ t ∈ s.todos, t.id ≠ newTodo.id) :
    lookupTodo (addTodoOptimistic s (mkOptimisticTodo todoData tempId now parse)).todos tempId =
      some (mkOptimisticTodo todoData tempId now parse) ∧
    (mkOptimisticTodo todoData tempId now parse).completed = false ∧
    (createTodoFlowSuccess s todoData tempId now parse newTodo).todos =
      s.todos ++ [newTodo] ∧
    (createTodoFlowSuccess s todoData tempId now parse newTodo).todos.filter
      (fun t => t.id = tempId) = [] ∧
    (createTodoFlowSuccess s todoData tempId now parse newTodo).todos.filter
      (fun t => t.id = newTodo.id) = [newTodo] ∧
    lookupOp (createTodoFlowSuccess s todoData tempId now parse newTodo).optimisticOperations
      tempId = none := by
  have htodos : (createTodoFlowSuccess s todoData tempId now parse newTodo).todos =
      s.todos ++ [newTodo] := by
    show replaceById (s.todos ++ [mkOptimisticTodo todoData tempId now parse]) tempId newTodo =
      s.todos ++ [newTodo]
    rw [replaceById_append_fresh s.todos _ tempId newTodo hfreshTemp]
    simp [replaceById, mkOptimisticTodo]
  refine ⟨?_, rfl, htodos, ?_, ?_, ?_⟩
  · show lookupTodo (s.todos ++ [mkOptimisticTodo todoData tempId now parse]) tempId = _
    rw [lookupTodo_append_fresh s.todos _ tempId hfreshTemp]
    simp only [lookupTodo]
    rw [List.find?_cons_of_pos _ (by simp [mkOptimisticTodo])]
  · rw [htodos, List.filter_append]
    have h1 : s.todos.filter (fun t => t.id = tempId) = [] := by
      rw [List.filter_eq_nil_iff]
      intro a ha
      simpa using hfreshTemp a ha
    rw [h1]
    simp [hneq]
  · rw [htodos, List.filter_append]
    have h1 : s.todos.filter (fun t => t.id = newTodo.id) = [] := by
      rw [List.filter_eq_nil_iff]
      intro a ha
      simpa using hfreshNew a ha
    rw [h1]
    simp
  · exact lookupOp_delOp_self _ tempId

/-- Concrete create request used by the C3 witness. -/
def sampleCreateReq : CreateTodoRequest :=
  { title := "Buy milk", description := none, priority := Priority.low, dueDate := none }

/-- Concrete server-returned todo used by the C3 witness. -/
def sampleServerTodo : Todo :=
  { id := "42", title := "Buy milk", description := none, completed := false,
    priority := Priority.low, dueDate := none, createdAt := 100, updatedAt := 100 }

/-- Witness for C3 at a concrete input. -/
theorem C3_create_success_witness :
    (∀ t ∈ sampleState.todos, t.id ≠ "temp-1") ∧
    sampleServerTodo.id ≠ "temp-1" ∧
    (∀ t ∈ sampleState.todos, t.id ≠ sampleServerTodo.id) ∧
    (lookupTodo
        (addTodoOptimistic sampleState
          (mkOptimisticTodo sampleCreateReq "temp-1" 50 String.length)).todos "temp-1" =
      some (mkOptimisticTodo sampleCreateReq "temp-1" 50 String.length) ∧
    (mkOptimisticTodo sampleCreateReq "temp-1" 50 String.length).completed = false ∧
    (createTodoFlowSuccess sampleState sampleCreateReq "temp-1" 50 String.length
      sampleServerTodo).todos = sampleState.todos ++ [sampleServerTodo] ∧
    (createTodoFlowSuccess sampleState sampleCreateReq "temp-1" 50 String.length
      sampleServerTodo).todos.filter (fun t => t.id = "temp-1") = [] ∧
    (createTodoFlowSuccess sampleState sampleCreateReq "temp-1" 50 String.length
      sampleServerTodo).todos.filter (fun t => t.id = sampleServerTodo.id) =
        [sampleServerTodo] ∧
    lookupOp (createTodoFlowSuccess sampleState sampleCreateReq "temp-1" 50 String.length
      sampleServerTodo).optimisticOperations "temp-1" = none) :=
  ⟨by decide, by decide, by decide,
    C3_create_success sampleState sampleCreateReq "temp-1" 50 String.length sampleServerTodo
      (by decide) (by decide) (by decide)⟩

/-- Claim C4: between submission and resolution of a delete, the entity stays
in the mirror but is marked pending-delete and is excluded from the rendered
projection for every filter/sort selection; remote success removes it from
the mirror; remote failure clears the mark (the whole pending-record map and
todo list return to their pre-submission values, so the entity reappears in
every projection) and the error is surfaced. -/
theorem C4_delete_lifecycle (s : TodoState) (todoId : String) (msg : String)
    (hpres : (s.todos.any (fun t => t.id = todoId)) = true)
    (hnoop : lookupOp s.optimisticOperations todoId = none) :
    (markTodoAsDeleting s todoId).todos = s.todos ∧
    lookupTodo (markTodoAsDeleting s todoId).todos todoId ≠ none ∧
    lookupOp (markTodoAsDeleting s todoId).optimisticOperations todoId =
      some OpKind.deleting ∧
    (∀ f st t, t ∈ renderedTodosWith (markTodoAsDeleting s todoId) f st → t.id ≠ todoId) ∧
    lookupTodo (deleteTodoFlowSuccess s todoId).todos todoId = none ∧
    (deleteTodoFlowFailure s todoId msg).todos = s.todos ∧
    (deleteTodoFlowFailure s todoId msg).optimisticOperations = s.optimisticOperations ∧
    (deleteTodoFlowFailure s todoId msg).error = some msg ∧
    (∀ f st, renderedTodosWith (deleteTodoFlowFailure s todoId msg) f st =
      renderedTodosWith s f st) := by
  have hops : (deleteTodoFlowFailure s todoId msg).optimisticOperations =
      s.optimisticOperations := by
    show delOp (setOp s.optimisticOperations todoId OpKind.deleting) todoId =
      s.optimisticOperations
    rw [delOp_setOp, delOp_of_lookupOp_none s.optimisticOperations todoId hnoop]
  refine ⟨rfl, ?_, ?_, ?_, ?_, rfl, hops, rfl, ?_⟩
  · show lookupTodo s.todos todoId ≠ none
    intro hn
    obtain ⟨x, hx, hpx⟩ := List.any_eq_true.mp hpres
    exact absurd hpx (by simpa using List.find?_eq_none.mp hn x hx)
  · exact lookupOp_setOp_self s.optimisticOperations todoId OpKind.deleting
  · intro f st t ht heq
    have hmem := List.mem_filter.mp ht
    have hdel : lookupOp (markTodoAsDeleting s todoId).optimisticOperations t.id ≠
        some OpKind.deleting := by simpa using hmem.2
    rw [heq] at hdel
    exact hdel (lookupOp_setOp_self s.optimisticOperations todoId OpKind.deleting)
  · show lookupTodo (s.todos.filter (fun t => t.id ≠ todoId)) todoId = none
    simp only [lookupTodo]
    rw [List.find?_eq_none]
    intro x hx
    have := (List.mem_filter.mp hx).2
    simpa using this
  · intro f st
    have ht : (deleteTodoFlowFailure s todoId msg).todos = s.todos := rfl
    simp only [renderedTodosWith, ht, hops]

/-- Witness for C4 at a concrete input. -/
theorem C4_delete_lifecycle_witness :
    ((sampleState.todos.any (fun t => t.id = "1")) = true) ∧
    (lookupOp sampleState.optimisticOperations "1" = none) ∧
    ((markTodoAsDeleting sampleState "1").todos = sampleState.todos ∧
    lookupTodo (markTodoAsDeleting sampleState "1").todos "1" ≠ none ∧
    lookupOp (markTodoAsDeleting sampleState "1").optimisticOperations "1" =
      some OpKind.deleting ∧
    (∀ f st t, t ∈ renderedTodosWith (markTodoAsDeleting sampleState "1") f st → t.id ≠ "1") ∧
    lookupTodo (deleteTodoFlowSuccess sampleState "1").todos "1" = none ∧
    (deleteTodoFlowFailure sampleState "1" "Failed to delete todo").todos =
      sampleState.todos ∧
    (deleteTodoFlowFailure sampleState "1" "Failed to delete todo").optimisticOperations =
      sampleState.optimisticOperations ∧
    (deleteTodoFlowFailure sampleState "1" "Failed to delete todo").error =
      some "Failed to delete todo" ∧
    (∀ f st, renderedTodosWith (deleteTodoFlowFailure sampleState "1" "Failed to delete todo")
      f st = renderedTodosWith sampleState f st)) :=
  ⟨by decide, by decide,
    C4_delete_lifecycle sampleState "1" "Failed to delete todo" (by decide) (by decide)⟩

/-- Concrete baseline todo for the C2 counterexample. -/
def c2Baseline : Todo :=
  { id := "1", title := "original", description := none, completed := false,
    priority := Priority.low, dueDate := none, createdAt := 0, updatedAt := 0 }

/-- Concrete update request for the C2 counterexample. -/
def c2Req : UpdateTodoRequest :=
  { title := some "edited", description := none, completed := none,
    priority := none, dueDate := none }

/-- Concrete state for the C2 counterexample. -/
def c2State : TodoState :=
  { todos := [c2Baseline], loading := false, error := none,
    filter := FilterType.all, sort := SortType.created, optimisticOperations := [] }

/-- Claim C2 is false as stated: after a failed update the mirror entry does
equal the baseline, but the pending-operation record for the identifier is
NOT cleared — the rollback dispatch of `updateTodoOptimistic` re-writes it to
`'updating'` and `updateTodo.rejected` never deletes it, so it remains
`some OpKind.updating` instead of being absent. -/
theorem C2_counterexample :
    lookupTodo (updateTodoFlowFailure c2State c2Req c2Baseline 5 String.length
      apiUpdateErrorMsg).todos "1" = some c2Baseline ∧
    lookupOp (updateTodoFlowFailure c2State c2Req c2Baseline 5 String.length
      apiUpdateErrorMsg).optimisticOperations "1" = some OpKind.updating ∧
    lookupOp (updateTodoFlowFailure c2State c2Req c2Baseline 5 String.length
      apiUpdateErrorMsg).optimisticOperations "1" ≠ none := by
  refine ⟨by decide, by decide, by decide⟩

/-- Claim C2 as amended: after a failed single mutation the mirror entry for
the identifier equals exactly the baseline `B` in the update case (never the
optimistic value, never an intermediate state) and is entirely absent in the
create case; the pending-operation record is cleared in the create case, but
in the update case it remains, set to `updating`. -/
theorem C2_rollback_amended (s : TodoState) (d : UpdateTodoRequest) (originalTodo : Todo)
    (cd : CreateTodoRequest) (tempId : String) (now : Nat) (parse : String → Nat)
    (msgU msgC : String)
    (hpres : (s.todos.any (fun x => x.id = originalTodo.id)) = true)
    (hfresh : ∀ t ∈ s.todos, t.id ≠ tempId) :
    lookupTodo (updateTodoFlowFailure s d originalTodo now parse msgU).todos originalTodo.id =
      some originalTodo ∧
    lookupOp (updateTodoFlowFailure s d originalTodo now parse msgU).optimisticOperations
      originalTodo.id = some OpKind.updating ∧
    (updateTodoFlowFailure s d originalTodo now parse msgU).error = some msgU ∧
    (createTodoFlowFailure s cd tempId now parse msgC).todos = s.todos ∧
    lookupTodo (createTodoFlowFailure s cd tempId now parse msgC).todos tempId = none ∧
    lookupOp (createTodoFlowFailure s cd tempId now parse msgC).optimisticOperations tempId =
      none ∧
    (createTodoFlowFailure s cd tempId now parse msgC).error = some msgC := by
  have hVid : (overlayTodo d originalTodo now parse).id = originalTodo.id := rfl
  have h2 : ((updateTodoOptimistic s (overlayTodo d originalTodo now parse)).todos.any
      (fun x => x.id = originalTodo.id)) = true := by
    rw [any_updateTodoOptimistic s (overlayTodo d originalTodo now parse) originalTodo.id hVid]
    exact hpres
  have hcreate : (createTodoFlowFailure s cd tempId now parse msgC).todos = s.todos := by
    show (s.todos ++ [mkOptimisticTodo cd tempId now parse]).filter
      (fun t => t.id ≠ tempId) = s.todos
    rw [List.filter_append, filter_ne_fresh s.todos tempId hfresh]
    simp [mkOptimisticTodo]
  refine ⟨?_, ?_, rfl, hcreate, ?_, ?_, rfl⟩
  · exact lookupTodo_updateTodoOptimistic_self
      (updateTodoOptimistic s (overlayTodo d originalTodo now parse)) originalTodo h2
  · show lookupOp (updateTodoOptimistic
      (updateTodoOptimistic s (overlayTodo d originalTodo now parse))
      originalTodo).optimisticOperations originalTodo.id = some OpKind.updating
    rw [updateTodoOptimistic_pos _ originalTodo h2]
    exact lookupOp_setOp_self _ originalTodo.id OpKind.updating
  · rw [hcreate]
    simp only [lookupTodo]
    rw [List.find?_eq_none]
    intro x hx
    simpa using hfresh x hx
  · exact lookupOp_delOp_self _ tempId

/-- Witness for the amended C2 at a concrete input. -/
theorem C2_rollback_amended_witness :
    ((sampleState.todos.any (fun x => x.id = sampleTodo1.id)) = true) ∧
    (∀ t ∈ sampleState.todos, t.id ≠ "temp-9") ∧
    (lookupTodo (updateTodoFlowFailure sampleState sampleUpdateReq sampleTodo1 7 String.length
      apiUpdateErrorMsg).todos sampleTodo1.id = some sampleTodo1 ∧
    lookupOp (updateTodoFlowFailure sampleState sampleUpdateReq sampleTodo1 7 String.length
      apiUpdateErrorMsg).optimisticOperations sampleTodo1.id = some OpKind.updating ∧
    (updateTodoFlowFailure sampleState sampleUpdateReq sampleTodo1 7 String.length
      apiUpdateErrorMsg).error = some apiUpdateErrorMsg ∧
    (createTodoFlowFailure sampleState sampleCreateReq "temp-9" 7 String.length
      "Failed to create todo").todos = sampleState.todos ∧
    lookupTodo (createTodoFlowFailure sampleState sampleCreateReq "temp-9" 7 String.length
      "Failed to create todo").todos "temp-9" = none ∧
    lookupOp (createTodoFlowFailure sampleState sampleCreateReq "temp-9" 7 String.length
      "Failed to create todo").optimisticOperations "temp-9" = none ∧
    (createTodoFlowFailure sampleState sampleCreateReq "temp-9" 7 String.length
      "Failed to create todo").error = some "Failed to create todo") :=
  ⟨by decide, by decide,
    C2_rollback_amended sampleState sampleUpdateReq sampleTodo1 sampleCreateReq "temp-9" 7
      String.length apiUpdateErrorMsg "Failed to create todo" (by decide) (by decide)⟩

/-- Concrete baseline todo for the C1 scenario. -/
def c1Baseline : Todo :=
  { id := "1", title := "baseline", description := none, completed := false,
    priority := Priority.low, dueDate := none, createdAt := 0, updatedAt := 0 }

/-- First update request (U1) of the C1 scenario. -/
def c1Req1 : UpdateTodoRequest :=
  { title := some "edit one", description := none, completed := none,
    priority := none, dueDate := none }

/-- Second update request (U2) of the C1 scenario. -/
def c1Req2 : UpdateTodoRequest :=
  { title := some "edit two", description := none, completed := none,
    priority := none, dueDate := none }

/-- Server-confirmed result of U2 in the C1 scenario. -/
def c1Server : Todo :=
  { id := "1", title := "edit two", description := none, completed := false,
    priority := Priority.low, dueDate := none, createdAt := 0, updatedAt := 3 }

/-- Concrete state for the C1 scenario. -/
def c1State : TodoState :=
  { todos := [c1Baseline], loading := false, error := none,
    filter := FilterType.all, sort := SortType.created, optimisticOperations := [] }

/-- Claim C1 is false as stated: in the scenario where U1 and U2 are both
submitted on id "1" before U1 resolves, U1's remote call fails and U2's
succeeds, the resolution order in which U2's `fulfilled` lands before U1's
rollback leaves the mirror entry at U1's submit-time snapshot (`c1Baseline`),
not at U2's server-confirmed entity (`c1Server`): the rollback dispatch of
`updateTodoOptimistic` overwrites whatever the mirror holds, clobbering U2's
result. -/
theorem C1_counterexample :
    lookupTodo
      (setRejectedError
        (updateTodoOptimistic
          (updateTodoFulfilled
            (updateTodoOptimistic
              (updateTodoOptimistic c1State (overlayTodo c1Req1 c1Baseline 1 String.length))
              (overlayTodo c1Req2 (overlayTodo c1Req1 c1Baseline 1 String.length) 2
                String.length))
            c1Server)
          c1Baseline)
        apiUpdateErrorMsg).todos "1" = some c1Baseline ∧
    c1Baseline ≠ c1Server := by
  refine ⟨by decide, by decide⟩

/-- Claim C1 as amended: in the superseding scenario (U1 then U2 submitted on
the same identifier before U1 resolves, U1's remote call fails, U2's
succeeds), *provided U1's failure resolves before U2's success*, the mirror
entry ends at U2's server-confirmed entity; and U1's rollback restores
exactly the snapshot captured at U1's submit time — the mirror entry right
after the rollback is `B1`, not the mirror's pre-rollback current value.
(When U2 resolves first, the rollback instead overwrites U2's result — see
the counterexample.) -/
theorem C1_supersede_amended (s : TodoState) (d1 d2 : UpdateTodoRequest) (B1 B2 S2 : Todo)
    (t1 t2 : Nat) (parse : String → Nat) (msg : String)
    (hpres : (s.todos.any (fun x => x.id = B1.id)) = true)
    (hB2 : B2.id = B1.id) (hS2 : S2.id = B1.id) :
    lookupTodo
      (updateTodoFulfilled
        (setRejectedError
          (updateTodoOptimistic
            (updateTodoOptimistic
              (updateTodoOptimistic s (overlayTodo d1 B1 t1 parse))
              (overlayTodo d2 B2 t2 parse))
            B1) msg) S2).todos B1.id = some S2 ∧
    lookupTodo
      (updateTodoOptimistic
        (updateTodoOptimistic
          (updateTodoOptimistic s (overlayTodo d1 B1 t1 parse))
          (overlayTodo d2 B2 t2 parse))
        B1).todos B1.id = some B1 := by
  have hV1 : (overlayTodo d1 B1 t1 parse).id = B1.id := rfl
  have hV2 : (overlayTodo d2 B2 t2 parse).id = B1.id := hB2
  have a1 : ((updateTodoOptimistic s (overlayTodo d1 B1 t1 parse)).todos.any
      (fun x => x.id = B1.id)) = true := by
    rw [any_updateTodoOptimistic s (overlayTodo d1 B1 t1 parse) B1.id hV1]
    exact hpres
  have a2 : ((updateTodoOptimistic (updateTodoOptimistic s (overlayTodo d1 B1 t1 parse))
      (overlayTodo d2 B2 t2 parse)).todos.any (fun x => x.id = B1.id)) = true := by
    rw [any_updateTodoOptimistic _ (overlayTodo d2 B2 t2 parse) B1.id hV2]
    exact a1
  have a3 : ((updateTodoOptimistic (updateTodoOptimistic (updateTodoOptimistic s
      (overlayTodo d1 B1 t1 parse)) (overlayTodo d2 B2 t2 parse)) B1).todos.any
      (fun x => x.id = B1.id)) = true := by
    rw [any_updateTodoOptimistic _ B1 B1.id rfl]
    exact a2
  refine ⟨?_, lookupTodo_updateTodoOptimistic_self _ B1 a2⟩
  have a3' : (((setRejectedError (updateTodoOptimistic (updateTodoOptimistic
      (updateTodoOptimistic s (overlayTodo d1 B1 t1 parse)) (overlayTodo d2 B2 t2 parse)) B1)
      msg).todos).any (fun x => x.id = S2.id)) = true := by
    rw [hS2]
    exact a3
  have hfin := lookupTodo_replaceById_self
    (setRejectedError (updateTodoOptimistic (updateTodoOptimistic
      (updateTodoOptimistic s (overlayTodo d1 B1 t1 parse)) (overlayTodo d2 B2 t2 parse)) B1)
      msg).todos S2.id S2 rfl a3'
  rw [← hS2]
  exact hfin

/-- Witness for the amended C1 at a concrete input (U2's captured baseline is
the same entity `c1Baseline`; any baseline with the same identifier works). -/
theorem C1_supersede_amended_witness :
    ((c1State.todos.any (fun x => x.id = c1Baseline.id)) = true) ∧
    c1Baseline.id = c1Baseline.id ∧
    c1Server.id = c1Baseline.id ∧
    (lookupTodo
      (updateTodoFulfilled
        (setRejectedError
          (updateTodoOptimistic
            (updateTodoOptimistic
              (updateTodoOptimistic c1State (overlayTodo c1Req1 c1Baseline 1 String.length))
              (overlayTodo c1Req2 c1Baseline 2 String.length))
            c1Baseline) apiUpdateErrorMsg) c1Server).todos c1Baseline.id = some c1Server ∧
    lookupTodo
      (updateTodoOptimistic
        (updateTodoOptimistic
          (updateTodoOptimistic c1State (overlayTodo c1Req1 c1Baseline 1 String.length))
          (overlayTodo c1Req2 c1Baseline 2 String.length))
        c1Baseline).todos c1Baseline.id = some c1Baseline) :=
  ⟨by decide, rfl, by decide,
    C1_supersede_amended c1State c1Req1 c1Req2 c1Baseline c1Baseline c1Server 1 2
      String.length apiUpdateErrorMsg (by decide) rfl (by decide)⟩

/-- Concrete todo with id "5" for the C6 counterexample (the spec's toggle
scenario). -/
def c6ToggleTarget : Todo :=
  { id := "5", title := "five", description := none, completed := false,
    priority := Priority.low, dueDate := none, createdAt := 0, updatedAt := 0 }

/-- Concrete todo with id "7" for the C6 counterexample. -/
def c6UpdateTarget : Todo :=
  { id := "7", title := "seven", description := none, completed := false,
    priority := Priority.low, dueDate := none, createdAt := 0, updatedAt := 0 }

/-- Concrete state holding the toggle target. -/
def c6StateA : TodoState :=
  { todos := [c6ToggleTarget], loading := false, error := none,
    filter := FilterType.all, sort := SortType.created, optimisticOperations := [] }

/-- Concrete state holding the update target. -/
def c6StateB : TodoState :=
  { todos := [c6UpdateTarget], loading := false, error := none,
    filter := FilterType.all, sort := SortType.created, optimisticOperations := [] }

/-- Concrete request for the C6 counterexample. -/
def c6Req : UpdateTodoRequest :=
  { title := some "changed", description := none, completed := none,
    priority := none, dueDate := none }

/-- Claim C6 is false as stated: the error surfaced to the caller is the bare
message string stored in `state.error` by the `.rejected` reducers.  A failed
toggle on id "5" and a failed update on id "7" both surface the identical
value `some "Failed to update todo"` (the message thrown by
`todoApi.updateTodo`), so the surfaced error value carries neither the
mutation kind nor the affected identifier and the two failures are not
distinguishable from it. -/
theorem C6_counterexample :
    (toggleTodoFlowFailure c6StateA c6ToggleTarget 1 apiUpdateErrorMsg).error =
      (updateTodoFlowFailure c6StateB c6Req c6UpdateTarget 1 String.length
        apiUpdateErrorMsg).error ∧
    (toggleTodoFlowFailure c6StateA c6ToggleTarget 1 apiUpdateErrorMsg).error =
      some "Failed to update todo" := by
  refine ⟨by decide, by decide⟩

/-- Claim C6 as amended: every remote-call failure of every mutation kind is
surfaced (the `.rejected` reducer stores the message, so `state.error`
becomes non-null — no failure is silently swallowed), the failed toggle's
mirror entry is reverted to its pre-toggle value, and each failure's blast
radius is limited to its own identifier's mirror entry (every other
identifier's lookup is unchanged); but the surfaced value is a plain message
string carrying neither the mutation kind nor the identifier. -/
theorem C6_failures_amended (s : TodoState) (todo originalTodo : Todo)
    (d : UpdateTodoRequest) (cd : CreateTodoRequest) (tempId todoId : String) (now : Nat)
    (parse : String → Nat) (msg : String)
    (hpresT : (s.todos.any (fun x => x.id = todo.id)) = true) :
    (toggleTodoFlowFailure s todo now msg).error = some msg ∧
    lookupTodo (toggleTodoFlowFailure s todo now msg).todos todo.id = some todo ∧
    (∀ u, u ≠ todo.id →
      lookupTodo (toggleTodoFlowFailure s todo now msg).todos u = lookupTodo s.todos u) ∧
    (updateTodoFlowFailure s d originalTodo now parse msg).error = some msg ∧
    (∀ u, u ≠ originalTodo.id →
      lookupTodo (updateTodoFlowFailure s d originalTodo now parse msg).todos u =
        lookupTodo s.todos u) ∧
    (createTodoFlowFailure s cd tempId now parse msg).error = some msg ∧
    (∀ u, u ≠ tempId →
      lookupTodo (createTodoFlowFailure s cd tempId now parse msg).todos u =
        lookupTodo s.todos u) ∧
    (deleteTodoFlowFailure s todoId msg).error = some msg ∧
    (deleteTodoFlowFailure s todoId msg).todos = s.todos := by
  have hTid : (toggledTodo todo now).id = todo.id := rfl
  have a1 : ((updateTodoOptimistic s (toggledTodo todo now)).todos.any
      (fun x => x.id = todo.id)) = true := by
    rw [any_updateTodoOptimistic s (toggledTodo todo now) todo.id hTid]
    exact hpresT
  refine ⟨rfl, ?_, ?_, rfl, ?_, rfl, ?_, rfl, rfl⟩
  · exact lookupTodo_updateTodoOptimistic_self
      (updateTodoOptimistic s (toggledTodo todo now)) todo a1
  · intro u hu
    exact (lookupTodo_updateTodoOptimistic_ne
        (updateTodoOptimistic s (toggledTodo todo now)) todo u hu).trans
      (lookupTodo_updateTodoOptimistic_ne s (toggledTodo todo now) u hu)
  · intro u hu
    exact (lookupTodo_updateTodoOptimistic_ne
        (updateTodoOptimistic s (overlayTodo d originalTodo now parse)) originalTodo u
        hu).trans
      (lookupTodo_updateTodoOptimistic_ne s (overlayTodo d originalTodo now parse) u hu)
  · intro u hu
    show lookupTodo ((s.todos ++ [mkOptimisticTodo cd tempId now parse]).filter
      (fun t => t.id ≠ tempId)) u = lookupTodo s.todos u
    rw [lookupTodo_filter_ne (s.todos ++ [mkOptimisticTodo cd tempId now parse]) tempId u hu]
    exact lookupTodo_append_single_ne s.todos (mkOptimisticTodo cd tempId now parse) u
      (fun h => hu h.symm)

/-- Witness for the amended C6 at a concrete input. -/
theorem C6_failures_amended_witness :
    ((c6StateA.todos.any (fun x => x.id = c6ToggleTarget.id)) = true) ∧
    ((toggleTodoFlowFailure c6StateA c6ToggleTarget 1 apiUpdateErrorMsg).error =
      some apiUpdateErrorMsg ∧
    lookupTodo (toggleTodoFlowFailure c6StateA c6ToggleTarget 1 apiUpdateErrorMsg).todos
      c6ToggleTarget.id = some c6ToggleTarget ∧
    (∀ u, u ≠ c6ToggleTarget.id →
      lookupTodo (toggleTodoFlowFailure c6StateA c6ToggleTarget 1 apiUpdateErrorMsg).todos u =
        lookupTodo c6StateA.todos u) ∧
    (updateTodoFlowFailure c6StateA c6Req c6UpdateTarget 1 String.length
      apiUpdateErrorMsg).error = some apiUpdateErrorMsg ∧
    (∀ u, u ≠ c6UpdateTarget.id →
      lookupTodo (updateTodoFlowFailure c6StateA c6Req c6UpdateTarget 1 String.length
        apiUpdateErrorMsg).todos u = lookupTodo c6StateA.todos u) ∧
    (createTodoFlowFailure c6StateA sampleCreateReq "temp-2" 1 String.length
      apiUpdateErrorMsg).error = some apiUpdateErrorMsg ∧
    (∀ u, u ≠ "temp-2" →
      lookupTodo (createTodoFlowFailure c6StateA sampleCreateReq "temp-2" 1 String.length
        apiUpdateErrorMsg).todos u = lookupTodo c6StateA.todos u) ∧
    (deleteTodoFlowFailure c6StateA "5" apiUpdateErrorMsg).error = some apiUpdateErrorMsg ∧
    (deleteTodoFlowFailure c6StateA "5" apiUpdateErrorMsg).todos = c6StateA.todos) :=
  ⟨by decide,
    C6_failures_amended c6StateA c6ToggleTarget c6UpdateTarget c6Req sampleCreateReq "temp-2"
      "5" 1 String.length apiUpdateErrorMsg (by decide)⟩

/-- Claim C10: `TodoService.update(id, dto)` (with pairwise-distinct stored
identifiers and the id present) succeeds and modifies only the todo whose
identifier equals `id`: the collection keeps its length and order, every
positionally paired todo with a different identifier is unchanged, and the
target todo changes only the fields present in the dto plus `updatedAt`,
preserving `id` and `createdAt`. -/
theorem C10_service_update_frame (todos : List Todo) (todoId : String) (dto : UpdateTodoDto)
    (now : Nat) (parse : String → Nat)
    (hnd : (todos.map Todo.id).Nodup)
    (hpres : (todos.any (fun t => t.id = todoId)) = true) :
    TodoServiceUpdate todos todoId dto now parse =
      Except.ok (updateFirstById todos todoId (fun t => applyUpdateDto t dto now parse)) ∧
    (updateFirstById todos todoId (fun t => applyUpdateDto t dto now parse)).length =
      todos.length ∧
    (∀ p ∈ todos.zip (updateFirstById todos todoId (fun t => applyUpdateDto t dto now parse)),
      (p.1.id ≠ todoId → p.2 = p.1) ∧
      (p.1.id = todoId → p.2 = applyUpdateDto p.1 dto now parse)) ∧
    (∀ t : Todo,
      (applyUpdateDto t dto now parse).id = t.id ∧
      (applyUpdateDto t dto now parse).createdAt = t.createdAt ∧
      (applyUpdateDto t dto now parse).updatedAt = now ∧
      (dto.title = none → (applyUpdateDto t dto now parse).title = t.title) ∧
      (dto.description = none → (applyUpdateDto t dto now parse).description = t.description) ∧
      (dto.completed = none → (applyUpdateDto t dto now parse).completed = t.completed) ∧
      (dto.priority = none → (applyUpdateDto t dto now parse).priority = t.priority) ∧
      (dto.dueDate = none → (applyUpdateDto t dto now parse).dueDate = t.dueDate)) := by
  refine ⟨by simp [TodoServiceUpdate, hpres], length_updateFirstById todos todoId _,
    zip_updateFirstById todos todoId _ hnd, ?_⟩
  intro t
  refine ⟨rfl, rfl, rfl, ?_, ?_, ?_, ?_, ?_⟩
  · intro h
    simp [applyUpdateDto, h]
  · intro h
    simp [applyUpdateDto, h]
  · intro h
    simp [applyUpdateDto, h]
  · intro h
    simp [applyUpdateDto, h]
  · intro h
    simp [applyUpdateDto, h]

/-- Concrete backend dto for the C10 witness: sets the title and completion,
clears the due date with the empty-string sentinel, leaves the rest absent. -/
def sampleDto : UpdateTodoDto :=
  { title := some "done soon", description := none, completed := some true,
    priority := none, dueDate := some "" }

/-- Witness for C10 at a concrete input. -/
theorem C10_service_update_frame_witness :
    (([sampleTodo1, sampleTodo2].map Todo.id).Nodup) ∧
    (([sampleTodo1, sampleTodo2].any (fun t => t.id = "2")) = true) ∧
    (TodoServiceUpdate [sampleTodo1, sampleTodo2] "2" sampleDto 77 String.length =
      Except.ok (updateFirstById [sampleTodo1, sampleTodo2] "2"
        (fun t => applyUpdateDto t sampleDto 77 String.length)) ∧
    (updateFirstById [sampleTodo1, sampleTodo2] "2"
      (fun t => applyUpdateDto t sampleDto 77 String.length)).length =
      [sampleTodo1, sampleTodo2].length ∧
    (∀ p ∈ [sampleTodo1, sampleTodo2].zip (updateFirstById [sampleTodo1, sampleTodo2] "2"
        (fun t => applyUpdateDto t sampleDto 77 String.length)),
      (p.1.id ≠ "2" → p.2 = p.1) ∧
      (p.1.id = "2" → p.2 = applyUpdateDto p.1 sampleDto 77 String.length)) ∧
    (∀ t : Todo,
      (applyUpdateDto t sampleDto 77 String.length).id = t.id ∧
      (applyUpdateDto t sampleDto 77 String.length).createdAt = t.createdAt ∧
      (applyUpdateDto t sampleDto 77 String.length).updatedAt = 77 ∧
      (sampleDto.title = none →
        (applyUpdateDto t sampleDto 77 String.length).title = t.title) ∧
      (sampleDto.description = none →
        (applyUpdateDto t sampleDto 77 String.length).description = t.description) ∧
      (sampleDto.completed = none →
        (applyUpdateDto t sampleDto 77 String.length).completed = t.completed) ∧
      (sampleDto.priority = none →
        (applyUpdateDto t sampleDto 77 String.length).priority = t.priority) ∧
      (sampleDto.dueDate = none →
        (applyUpdateDto t sampleDto 77 String.length).dueDate = t.dueDate))) :=
  ⟨by decide, by decide,
    C10_service_update_frame [sampleTodo1, sampleTodo2] "2" sampleDto 77 String.length
      (by decide) (by decide)⟩
